import Mathlib

/-!
# Verification of the GazeTracker-v2 CSV export pipeline

Shallow embedding of `src/core/csv_exporter.py` (class `CSVExporter`):
per-field validation (`validate_numeric_field`, `validate_timestamp`),
record validation (`validate_data_point`), buffered export with flush
(`_flush_buffer`, `export_session`) and the per-session statistics.

Modelling conventions:
* Python floats are embedded as `ℚ`; a `ℚ` value is finite by construction,
  and the non-finite inputs (NaN, ±Infinity) as well as non-coercible raw
  values are separate constructors of `RawValue`.
* A raw sample (a Python dict) is an association list from field name to
  `RawValue`; an absent key reads as `RawValue.missing` (Python `dict.get`
  returns `None` for a missing key, and the code treats `None` and a missing
  key identically in `validate_numeric_field`; key presence is tested
  separately for the required fields).
* Wall-clock time is an explicit parameter `now` (milliseconds), and the
  local-timezone rendering `datetime.fromtimestamp(...).strftime(...)` is an
  explicit environment parameter `fmt : Int → String`.
* Logging is modelled only where a claim observes it: the timestamp-sequence
  diagnostics and the missing-required-field rejection are reified as
  `Warning` values; other log lines are not observable in any claim.
* The output sink (`io.StringIO` + `csv.writer`) cannot fail in-process, but
  the error-handling claims are about the code structure `_flush_buffer`
  re-raising into `export_session`'s blanket handler, so the sink is
  parameterised by `flushOk : Nat → Bool`: whether the k-th flush write
  succeeds.  `export_session` returning the empty string is the code's
  pipeline-level failure outcome (spec §7).
-/

namespace GazeTracker

/-- A raw field value as it may arrive from the capture layer.
`missing` doubles as "key absent" (what `dict.get` turns into `None`);
`pyNone` is an explicit `None` stored under a present key; `badStr` is any
string that numeric coercion rejects. -/
inductive RawValue where
  | missing
  | pyNone
  | emptyStr
  | num (q : ℚ)
  | nan
  | inf
  | negInf
  | badStr
  deriving DecidableEq, Repr

abbrev Field := String

/-- A raw sample: the Python dict, as an association list. -/
abbrev RawSample := List (Field × RawValue)

/-- `data.get(field)`: the stored value, or `missing` when the key is absent. -/
def RawSample.get (d : RawSample) (f : Field) : RawValue :=
  match List.lookup f d with
  | some v => v
  | none => .missing

/-- `field in data` (Python key-presence test). -/
def RawSample.hasKey (d : RawSample) (f : Field) : Bool :=
  (List.lookup f d).isSome

/-- `self.required_fields` (line 31). -/
def required_fields : List Field := ["timestamp", "x", "y"]

/-- `self.numeric_fields` (lines 32-35). -/
def numeric_fields : List Field :=
  ["x", "y", "confidence", "pupilD", "docX", "docY",
   "HeadX", "HeadY", "HeadZ", "HeadYaw", "HeadPitch", "HeadRoll"]

/-- `CSVExporter.validate_numeric_field` (lines 173-197).  `None`/empty string
return absent early; coercion failure (`badStr`) and the non-finite values
resolve to absent; `confidence` must lie in [0,1] and `pupilD` in [2,8], both
inclusive; every other field only needs finiteness. -/
def validate_numeric_field (value : RawValue) (field : Field) : Option ℚ :=
  match value with
  | .missing => none
  | .pyNone => none
  | .emptyStr => none
  | .nan => none
  | .inf => none
  | .negInf => none
  | .badStr => none
  | .num q =>
    if field = "confidence" then
      if 0 ≤ q ∧ q ≤ 1 then some q else none
    else if field = "pupilD" then
      if 2 ≤ q ∧ q ≤ 8 then some q else none
    else some q

/-- Python `int(value)`: truncation toward zero for a finite numeric value,
failure otherwise.  (`int(float('inf'))` raises `OverflowError`, which escapes
`validate_timestamp`'s `except (ValueError, TypeError)` but is swallowed by
`validate_data_point`'s blanket handler; observably the record is rejected and
the session state unchanged, which is what `none` here produces.) -/
def pyInt : RawValue → Option Int
  | .num q => some (if 0 ≤ q then ⌊q⌋ else ⌈q⌉)
  | _ => none

/-- The log lines a claim can observe. -/
inductive Warning where
  | missingRequired (f : Field)
  | tooFarPast (ts : Int)
  | tooFarFuture (ts : Int)
  | outOfSequence (ts last : Int)
  | largeGap (gap : Int)
  deriving DecidableEq, Repr

/-- `CSVExporter.validate_timestamp` (lines 199-226), with the ambient state
`self.last_timestamp` passed and returned explicitly.  Returns
(result, new last_timestamp, warnings logged). -/
def validate_timestamp (now : Int) (last : Option Int) (timestamp : RawValue) :
    Option Int × Option Int × List Warning :=
  match pyInt timestamp with
  | none => (none, last, [])
  | some ts =>
    if ts < now - 3600000 then (none, last, [.tooFarPast ts])
    else if ts > now + 1000 then (none, last, [.tooFarFuture ts])
    else
      let ws : List Warning :=
        match last with
        | none => []
        | some l =>
          if ts < l then [.outOfSequence ts l]
          else if ts - l > 1000 then [.largeGap (ts - l)]
          else []
      (some ts, some ts, ws)

/-- A validated record (the dict built by `validate_data_point`): canonical
integer timestamp, derived display string, and the twelve numeric fields each
present or absent, stored in field order as the loop builds them. -/
structure ValidatedRecord where
  timestamp : Int
  time_24h : String
  numerics : List (Field × Option ℚ)
  deriving DecidableEq, Repr

/-- `validated[field]` for a numeric field. -/
def ValidatedRecord.getF (r : ValidatedRecord) (f : Field) : Option ℚ :=
  match List.lookup f r.numerics with
  | some v => v
  | none => none

/-- First required field missing from the sample, if any (the loop at
lines 243-246 returns on the first missing field). -/
def firstMissing (data : RawSample) : Option Field :=
  List.find? (fun f => !(data.hasKey f)) required_fields

/-- `CSVExporter.validate_data_point` (lines 237-263): reject when a required
key is absent; validate the timestamp (rejecting the record on failure);
otherwise validate each numeric field independently, an invalid field becoming
absent without rejecting the record. -/
def validate_data_point (now : Int) (last : Option Int) (fmt : Int → String)
    (data : RawSample) : Option ValidatedRecord × Option Int × List Warning :=
  match firstMissing data with
  | some f => (none, last, [.missingRequired f])
  | none =>
    match validate_timestamp now last (data.get "timestamp") with
    | (none, last2, ws) => (none, last2, ws)
    | (some ts, last2, ws) =>
      (some { timestamp := ts
              time_24h := fmt ts
              numerics := numeric_fields.map fun f =>
                (f, validate_numeric_field (data.get f) f) },
       last2, ws)

/-! ## Rendering (`_flush_buffer`, lines 265-292) -/

/-- Python `round(x, n)` on the idealised (exact-decimal) value:
round-half-to-even of `q·10ⁿ`, divided by `10ⁿ` again.  Computed on the
numerator and denominator (the value `q·10ⁿ` is `q.num·10ⁿ / q.den`, its
floor is the floor division `f`, and its fractional part `r/q.den` compares
to ½ as `2r` compares to `q.den`). -/
def pyRound (q : ℚ) (n : Nat) : ℚ :=
  let d : Int := (q.den : Int)
  let m : Int := q.num * 10 ^ n
  let f : Int := m.fdiv d
  let r : Int := m - f * d
  let rounded : Int :=
    if 2 * r < d then f
    else if 2 * r > d then f + 1
    else if f % 2 = 0 then f else f + 1
  mkRat rounded (10 ^ n)

/-- Strip trailing `'0'` from a digit list, keeping at least one digit. -/
def stripZeros (l : List Char) : List Char :=
  match (l.reverse.dropWhile (· = '0')).reverse with
  | [] => ['0']
  | ds => ds

/-- `str(float)` of a value with a short exact decimal expansion (denominator
dividing 10⁹): integer part, then the fractional digits with trailing zeros
stripped but at least one digit (so `500.0`, `0.9`).  This is exactly Python's
shortest-repr on such values. -/
def renderFloat (q : ℚ) : String :=
  let sign := if q.num < 0 then "-" else ""
  let na : Nat := q.num.natAbs
  let ip : Nat := na / q.den
  let r : Nat := na % q.den
  let n9 : Nat := r * 10 ^ 9 / q.den
  let ds := (toString n9).toList
  let padded := List.replicate (9 - ds.length) '0' ++ ds
  sign ++ toString ip ++ "." ++ String.mk (stripZeros padded)

/-- One output cell: the rounded value rendered, or the empty cell. -/
def cell (v : Option ℚ) (prec : Nat) : String :=
  match v with
  | none => ""
  | some q => renderFloat (pyRound q prec)

/-- The row `_flush_buffer` writes for one validated record (lines 273-288):
timestamp, recomputed display time, then the numeric fields at their
field-specific precisions (3 for gaze/document coordinates, 2 for confidence,
1 for pupil and head fields), absent fields as empty cells. -/
def renderRow (fmt : Int → String) (r : ValidatedRecord) : List String :=
  [toString r.timestamp, fmt r.timestamp,
   cell (r.getF "x") 3, cell (r.getF "y") 3,
   cell (r.getF "confidence") 2, cell (r.getF "pupilD") 1,
   cell (r.getF "docX") 3, cell (r.getF "docY") 3,
   cell (r.getF "HeadX") 1, cell (r.getF "HeadY") 1, cell (r.getF "HeadZ") 1,
   cell (r.getF "HeadYaw") 1, cell (r.getF "HeadPitch") 1,
   cell (r.getF "HeadRoll") 1]

/-- The header row written by `export_session` (lines 303-307). -/
def headerRow : List String :=
  ["timestamp", "time_24h", "x", "y", "confidence", "pupilD",
   "docX", "docY", "HeadX", "HeadY", "HeadZ", "HeadYaw", "HeadPitch", "HeadRoll"]

/-- `csv.writer` with `QUOTE_MINIMAL` on cells that need no quoting: each
`writerow` call appends the cells joined by commas, terminated by the
writer's default `\r\n`. -/
def toCSV : List (List String) → String
  | [] => ""
  | r :: rs => String.intercalate "," r ++ "\x0d\x0a" ++ toCSV rs

/-! ## The export pass (`export_session`, lines 294-342) -/

/-- `self.performance_stats` (the counters; `processing_time` is wall-clock
observability and modelled as external). -/
structure Stats where
  total_points : Nat
  valid_points : Nat
  invalid_points : Nat
  deriving DecidableEq, Repr

/-- The reset value written at lines 310-315 (and at `__init__`). -/
def stats0 : Stats := ⟨0, 0, 0⟩

/-- The exporter's session-relevant mutable state: `self.data_buffer`,
`self.last_timestamp`, `self.performance_stats`. -/
structure ExporterState where
  buffer : List ValidatedRecord
  last_timestamp : Option Int
  stats : Stats
  deriving DecidableEq, Repr

/-- A brand-new exporter (`__init__`: empty buffer, zero stats, no
`last_timestamp` attribute yet). -/
def freshState : ExporterState := ⟨[], none, stats0⟩

/-- Intermediate state of the streaming loop inside one `export_session`
call: exporter state plus the rows written so far, the number of completed
flush calls, the warnings logged, and whether the call has aborted into the
blanket exception handler. -/
structure LoopState where
  buffer : List ValidatedRecord
  last : Option Int
  stats : Stats
  rows : List (List String)
  flushes : Nat
  warnings : List Warning
  aborted : Bool
  deriving DecidableEq, Repr

/-- One iteration of the `for data in ... gaze_data` loop (lines 317-329):
count the point, validate it, either buffer it (flushing when the buffer
reaches capacity, a failing flush aborting the call with the buffer left
intact, as `_flush_buffer` raises before clearing) or count it invalid. -/
def processRecord (N : Nat) (now : Int) (fmt : Int → String)
    (flushOk : Nat → Bool) (ls : LoopState) (data : RawSample) : LoopState :=
  if ls.aborted then ls
  else
    let v := validate_data_point now ls.last fmt data
    match v.1 with
    | none =>
      { ls with
        last := v.2.1
        warnings := ls.warnings ++ v.2.2
        stats := { total_points := ls.stats.total_points + 1
                   valid_points := ls.stats.valid_points
                   invalid_points := ls.stats.invalid_points + 1 } }
    | some r =>
      let buf := ls.buffer ++ [r]
      let ls1 : LoopState :=
        { ls with
          last := v.2.1
          warnings := ls.warnings ++ v.2.2
          buffer := buf
          stats := { total_points := ls.stats.total_points + 1
                     valid_points := ls.stats.valid_points + 1
                     invalid_points := ls.stats.invalid_points } }
      if N ≤ buf.length then
        if flushOk ls1.flushes then
          { ls1 with
            rows := ls1.rows ++ buf.map (renderRow fmt)
            buffer := []
            flushes := ls1.flushes + 1 }
        else { ls1 with aborted := true }
      else ls1

/-- The whole streaming loop. -/
def runLoop (N : Nat) (now : Int) (fmt : Int → String) (flushOk : Nat → Bool) :
    List RawSample → LoopState → LoopState
  | [], ls => ls
  | d :: rest, ls =>
    runLoop N now fmt flushOk rest (processRecord N now fmt flushOk ls d)

/-- Result of one `export_session` call: the data rows written, whether the
call aborted (the code then returns `""`), the exporter state left behind,
the number of completed flushes, and the warnings logged. -/
structure ExportResult where
  rows : List (List String)
  aborted : Bool
  state : ExporterState
  flushes : Nat
  warnings : List Warning
  deriving DecidableEq, Repr

/-- What `export_session` returns to the caller: the full CSV text on
success, `""` when the call aborted (lines 339-342). -/
def ExportResult.artifact (r : ExportResult) : String :=
  if r.aborted then "" else toCSV (headerRow :: r.rows)

/-- `CSVExporter.export_session` (lines 294-342): write the header, reset the
statistics (the buffer and `last_timestamp` are NOT reset), stream the
records, flush on capacity and once more at end-of-stream if the buffer is
non-empty, then call `_log_performance_metrics` (line 337); any exception
raised inside the `try` block is caught by the blanket handler and the call
returns `""`.

`_log_performance_metrics` (lines 344-358) divides `valid_points` (and
`invalid_points`) by `total_points` at lines 349-350, so when zero records
were processed it raises `ZeroDivisionError` into the blanket handler: the
call aborts with no flush failure, the rows already written to the
`StringIO` and the already-cleared buffer left as they are.  Elapsed
wall-clock time is modelled as positive, so the rate division at line 352
cannot raise, and every other statement of the function only logs. -/
def export_session (N : Nat) (now : Int) (fmt : Int → String)
    (flushOk : Nat → Bool) (st : ExporterState) (gaze_data : List RawSample) :
    ExportResult :=
  let ls0 : LoopState :=
    { buffer := st.buffer, last := st.last_timestamp, stats := stats0,
      rows := [], flushes := 0, warnings := [], aborted := false }
  let ls1 := runLoop N now fmt flushOk gaze_data ls0
  let ls2 : LoopState :=
    if ls1.aborted then ls1
    else if ls1.buffer.isEmpty then ls1
    else if flushOk ls1.flushes then
      { ls1 with
        rows := ls1.rows ++ ls1.buffer.map (renderRow fmt)
        buffer := []
        flushes := ls1.flushes + 1 }
    else { ls1 with aborted := true }
  { rows := ls2.rows
    aborted := ls2.aborted || (ls2.stats.total_points == 0)
    state := { buffer := ls2.buffer, last_timestamp := ls2.last, stats := ls2.stats }
    flushes := ls2.flushes
    warnings := ls2.warnings }

/-- The validated record a sample yields, independent of the session's
`last_timestamp` (which only influences warnings, never acceptance). -/
def mkValidated (now : Int) (fmt : Int → String) (data : RawSample) :
    Option ValidatedRecord :=
  match firstMissing data with
  | some _ => none
  | none =>
    match pyInt (data.get "timestamp") with
    | none => none
    | some ts =>
      if ts < now - 3600000 then none
      else if ts > now + 1000 then none
      else
        some { timestamp := ts
               time_24h := fmt ts
               numerics := numeric_fields.map fun f =>
                 (f, validate_numeric_field (data.get f) f) }

/-- The sequence of validated records a session yields. -/
def validatedList (now : Int) (fmt : Int → String) (l : List RawSample) :
    List ValidatedRecord :=
  l.filterMap (mkValidated now fmt)

end GazeTracker

namespace GazeTracker

/-! ## Helper lemmas -/

/-- `int()` of an embedded Python int is that integer. -/
theorem pyInt_intCast (T : Int) : pyInt (.num (T : ℚ)) = some T := by
  unfold pyInt
  simp [Int.floor_intCast, Int.ceil_intCast]

/-- Looking a field up in the numerics list built by the validation loop. -/
theorem lookup_map_self (g : Field → Option ℚ) :
    ∀ (l : List Field) (f : Field), f ∈ l →
      List.lookup f (l.map fun x => (x, g x)) = some (g f) := by
  intro l
  induction l with
  | nil => intro f h; exact absurd h (List.not_mem_nil f)
  | cons a t ih =>
    intro f hf
    rcases eq_or_ne f a with h | h
    · subst h
      simp [List.lookup]
    · rcases List.mem_cons.mp hf with h2 | h2
      · exact absurd h2 h
      · have hb : (f == a) = false := beq_eq_false_iff_ne.mpr h
        simpa [List.lookup, hb] using ih f h2

/-- `validate_data_point`'s verdict does not depend on `last_timestamp`. -/
theorem vdp_fst (now : Int) (last : Option Int) (fmt : Int → String)
    (d : RawSample) :
    (validate_data_point now last fmt d).1 = mkValidated now fmt d := by
  unfold validate_data_point mkValidated validate_timestamp
  cases firstMissing d with
  | some f => rfl
  | none =>
    cases pyInt (d.get "timestamp") with
    | none => rfl
    | some ts =>
      by_cases h1 : ts < now - 3600000
      · simp [h1]
      · by_cases h2 : ts > now + 1000
        · simp [h1, h2]
        · simp [h1, h2]

theorem validatedList_cons (now : Int) (fmt : Int → String) (d : RawSample)
    (l : List RawSample) :
    validatedList now fmt (d :: l)
      = (mkValidated now fmt d).toList ++ validatedList now fmt l := by
  unfold validatedList
  cases h : mkValidated now fmt d <;> simp [List.filterMap_cons, h]

end GazeTracker

namespace GazeTracker

theorem getF_mk (ts : Int) (s : String) (g : Field → Option ℚ) (f : Field)
    (hf : f ∈ numeric_fields) :
    ValidatedRecord.getF ⟨ts, s, numeric_fields.map fun x => (x, g x)⟩ f = g f := by
  unfold ValidatedRecord.getF
  rw [lookup_map_self g numeric_fields f hf]

/-! ## Claim theorems -/

/-- C3: `validate_numeric_field` treats the range bounds inclusively:
confidence 0 and 1 are accepted, -1 and 2 rejected to absent; pupil diameter
2 and 8 are accepted, 1 and 9 rejected to absent. -/
theorem claim_C3 :
    validate_numeric_field (.num 0) "confidence" = some 0 ∧
    validate_numeric_field (.num 1) "confidence" = some 1 ∧
    validate_numeric_field (.num (-1)) "confidence" = none ∧
    validate_numeric_field (.num 2) "confidence" = none ∧
    validate_numeric_field (.num 2) "pupilD" = some 2 ∧
    validate_numeric_field (.num 8) "pupilD" = some 8 ∧
    validate_numeric_field (.num 1) "pupilD" = none ∧
    validate_numeric_field (.num 9) "pupilD" = none := by
  decide

/-- C4: `validate_numeric_field` is total: every input resolves to absent or
to the (finite, by the `ℚ` embedding) coerced value itself; missing input,
`None`, the empty string, failed coercion, and NaN/±Infinity all resolve to
absent.  (Totality-as-no-exception is by construction of the embedding: the
Python code's failure paths are exactly the constructors mapped to `none`.) -/
theorem claim_C4 (v : RawValue) (f : Field) :
    (validate_numeric_field v f = none ∨
      ∃ q : ℚ, v = .num q ∧ validate_numeric_field v f = some q) ∧
    validate_numeric_field .missing f = none ∧
    validate_numeric_field .pyNone f = none ∧
    validate_numeric_field .emptyStr f = none ∧
    validate_numeric_field .badStr f = none ∧
    validate_numeric_field .nan f = none ∧
    validate_numeric_field .inf f = none ∧
    validate_numeric_field .negInf f = none := by
  refine ⟨?_, rfl, rfl, rfl, rfl, rfl, rfl, rfl⟩
  cases v with
  | num q =>
    by_cases h1 : f = "confidence"
    · by_cases h2 : 0 ≤ q ∧ q ≤ 1
      · exact Or.inr ⟨q, rfl, by simp [validate_numeric_field, h1, h2]⟩
      · exact Or.inl (by simp [validate_numeric_field, h1, h2])
    · by_cases h3 : f = "pupilD"
      · by_cases h4 : 2 ≤ q ∧ q ≤ 8
        · exact Or.inr ⟨q, rfl, by simp [validate_numeric_field, h1, h3, h4]⟩
        · exact Or.inl (by simp [validate_numeric_field, h1, h3, h4])
      · exact Or.inr ⟨q, rfl, by simp [validate_numeric_field, h1, h3]⟩
  | missing => exact Or.inl rfl
  | pyNone => exact Or.inl rfl
  | emptyStr => exact Or.inl rfl
  | nan => exact Or.inl rfl
  | inf => exact Or.inl rfl
  | negInf => exact Or.inl rfl
  | badStr => exact Or.inl rfl

end GazeTracker

namespace GazeTracker

/-- C5: an otherwise-valid timestamp that is strictly below the session's
last-accepted timestamp logs exactly the one out-of-sequence warning, is
still accepted (returned, not absent), the record is not dropped, and the
last-accepted timestamp is updated to the new value. -/
theorem claim_C5 (now l ts : Int) (fmt : Int → String) (d : RawSample)
    (hts : pyInt (d.get "timestamp") = some ts)
    (hw1 : now - 3600000 ≤ ts) (hw2 : ts ≤ now + 1000) (hseq : ts < l)
    (ht : d.hasKey "timestamp" = true) (hx : d.hasKey "x" = true)
    (hy : d.hasKey "y" = true) :
    validate_timestamp now (some l) (d.get "timestamp")
      = (some ts, some ts, [.outOfSequence ts l]) ∧
    validate_data_point now (some l) fmt d
      = (some ⟨ts, fmt ts, numeric_fields.map fun f =>
            (f, validate_numeric_field (d.get f) f)⟩,
         some ts, [.outOfSequence ts l]) := by
  have h1 : ¬ ts < now - 3600000 := by omega
  have h2 : ¬ ts > now + 1000 := by omega
  have hvt : validate_timestamp now (some l) (d.get "timestamp")
      = (some ts, some ts, [.outOfSequence ts l]) := by
    simp [validate_timestamp, hts, h1, h2, hseq]
  have hfm : firstMissing d = none := by
    simp [firstMissing, required_fields, List.find?, ht, hx, hy]
  exact ⟨hvt, by simp [validate_data_point, hfm, hvt]⟩

/-- Witness for C5 at a concrete out-of-sequence sample. -/
theorem claim_C5_witness :
    validate_data_point 5000 (some 6000) (fun _ => "")
        [("timestamp", .num 5000), ("x", .num 1), ("y", .num 2)]
      = (some ⟨5000, "", numeric_fields.map fun f =>
            (f, validate_numeric_field
              (RawSample.get [("timestamp", .num 5000), ("x", .num 1), ("y", .num 2)] f) f)⟩,
         some 5000, [.outOfSequence 5000 6000]) :=
  (claim_C5 5000 6000 5000 (fun _ => "")
    [("timestamp", .num 5000), ("x", .num 1), ("y", .num 2)]
    (by decide) (by decide) (by decide) (by decide)
    (by decide) (by decide) (by decide)).2

end GazeTracker

namespace GazeTracker

/-- Characterisation of when a sample yields a validated record: required
keys present and the timestamp coercible and inside the window — nothing
about the values of `x` and `y`. -/
theorem mkValidated_isSome (now : Int) (fmt : Int → String) (d : RawSample) :
    (mkValidated now fmt d).isSome = true ↔
      firstMissing d = none ∧ ∃ ts, pyInt (d.get "timestamp") = some ts ∧
        now - 3600000 ≤ ts ∧ ts ≤ now + 1000 := by
  unfold mkValidated
  split
  next f heq => simp [heq]
  next heq =>
    split
    next heq2 => simp [heq, heq2]
    next ts heq2 =>
      split
      next h1 => simp [heq, heq2]; omega
      next h1 =>
        split
        next h2 => simp [heq, heq2]; omega
        next h2 => simp [heq, heq2]; omega

/-- The numeric fields of a produced record are exactly the per-field
validation results. -/
theorem mkValidated_fields (now : Int) (fmt : Int → String) (d : RawSample)
    (r : ValidatedRecord) (hr : mkValidated now fmt d = some r) :
    ∀ f ∈ numeric_fields, r.getF f = validate_numeric_field (d.get f) f := by
  unfold mkValidated at hr
  split at hr
  next => cases hr
  next =>
    split at hr
    next => cases hr
    next ts heq2 =>
      split at hr
      next => cases hr
      next =>
        split at hr
        next => cases hr
        next =>
          injection hr with hr
          subst hr
          intro f hf
          exact getF_mk ts (fmt ts) _ f hf

/-- Counterexample to C2 as stated: a sample whose `x` value fails numeric
validation (a non-coercible string) still yields a Validated Record — the
code only tests key presence for `x` and `y`, not that their values passed. -/
theorem claim_C2_cex :
    ((validate_data_point 1700000000000 none (fun _ => "")
        [("timestamp", .num 1700000000000), ("x", .badStr), ("y", .num 500)]).1).isSome
      = true ∧
    validate_numeric_field
        (RawSample.get
          [("timestamp", .num 1700000000000), ("x", .badStr), ("y", .num 500)] "x") "x"
      = none := by
  constructor
  · rfl
  · rfl

/-- C2 (amended): a Validated Record is produced iff the required keys
`timestamp`, `x`, `y` are all present and the timestamp value passed
validation; the values of `x` and `y`, like every numeric field, are
validated independently, a failed field leaving the record exported with
that field absent. -/
theorem claim_C2_amended (now : Int) (last : Option Int) (fmt : Int → String)
    (d : RawSample) :
    ((validate_data_point now last fmt d).1.isSome = true ↔
      firstMissing d = none ∧ ∃ ts, pyInt (d.get "timestamp") = some ts ∧
        now - 3600000 ≤ ts ∧ ts ≤ now + 1000) ∧
    ∀ r, (validate_data_point now last fmt d).1 = some r →
      ∀ f ∈ numeric_fields, r.getF f = validate_numeric_field (d.get f) f := by
  constructor
  · rw [vdp_fst]
    exact mkValidated_isSome now fmt d
  · intro r hr
    rw [vdp_fst] at hr
    exact mkValidated_fields now fmt d r hr

/-- Witness for C2 (amended): a concrete sample with present required keys
and a valid timestamp is accepted. -/
theorem claim_C2_amended_witness :
    ((validate_data_point 1700000000000 none (fun _ => "")
        [("timestamp", .num 1700000000000), ("x", .num 500), ("y", .num 500)]).1).isSome
      = true :=
  (claim_C2_amended 1700000000000 none (fun _ => "")
    [("timestamp", .num 1700000000000), ("x", .num 500), ("y", .num 500)]).1.mpr
    ⟨rfl, 1700000000000, rfl, by decide, by decide⟩

end GazeTracker

namespace GazeTracker

/-- C7: exporting the same session twice, each time from fresh exporter
state (empty buffer, zero statistics, no last-accepted timestamp), under the
same wall-clock context, yields byte-identical artifacts. -/
theorem claim_C7 (N : Nat) (now : Int) (fmt : Int → String)
    (flushOk : Nat → Bool) (input : List RawSample) (s1 s2 : ExporterState)
    (h1b : s1.buffer = []) (h1l : s1.last_timestamp = none)
    (h1s : s1.stats = stats0) (h2b : s2.buffer = [])
    (h2l : s2.last_timestamp = none) (h2s : s2.stats = stats0) :
    (export_session N now fmt flushOk s1 input).artifact
      = (export_session N now fmt flushOk s2 input).artifact := by
  have h : s1 = s2 := by
    cases s1
    cases s2
    simp_all
  rw [h]

/-- Witness for C7 at a concrete session. -/
theorem claim_C7_witness :
    (export_session 2 0 (fun _ => "") (fun _ => true) freshState []).artifact
      = (export_session 2 0 (fun _ => "") (fun _ => true) freshState []).artifact :=
  claim_C7 2 0 (fun _ => "") (fun _ => true) [] freshState freshState
    rfl rfl rfl rfl rfl rfl

/-- One loop step under a non-failing sink: never aborts, counts the point,
and extends written-rows-plus-buffer by exactly the validated record, if
any. -/
theorem processRecord_ok (N : Nat) (now : Int) (fmt : Int → String)
    (flushOk : Nat → Bool) (hok : ∀ k, flushOk k = true)
    (ls : LoopState) (d : RawSample) (hab : ls.aborted = false) :
    (processRecord N now fmt flushOk ls d).aborted = false ∧
    (processRecord N now fmt flushOk ls d).rows
        ++ ((processRecord N now fmt flushOk ls d).buffer).map (renderRow fmt)
      = ls.rows ++ ls.buffer.map (renderRow fmt)
        ++ ((mkValidated now fmt d).toList).map (renderRow fmt) ∧
    (processRecord N now fmt flushOk ls d).stats.total_points
      = ls.stats.total_points + 1 ∧
    (processRecord N now fmt flushOk ls d).stats.valid_points
      = ls.stats.valid_points + (mkValidated now fmt d).toList.length ∧
    (processRecord N now fmt flushOk ls d).stats.invalid_points
      = ls.stats.invalid_points + (1 - (mkValidated now fmt d).toList.length) := by
  have hfst := vdp_fst now ls.last fmt d
  cases hv : (validate_data_point now ls.last fmt d).1 with
  | none =>
    rw [hv] at hfst
    simp [processRecord, hab, hv, ← hfst]
  | some r =>
    rw [hv] at hfst
    by_cases hbuf : N ≤ ls.buffer.length + 1
    · simp [processRecord, hab, hv, ← hfst, hbuf, hok]
    · simp [processRecord, hab, hv, ← hfst, hbuf]

/-- The streaming loop under a non-failing sink: never aborts; written rows
plus remaining buffer extend by exactly the session's validated records in
order; the counters advance by the total/valid/invalid counts of the
consumed input. -/
theorem runLoop_ok (N : Nat) (now : Int) (fmt : Int → String)
    (flushOk : Nat → Bool) (hok : ∀ k, flushOk k = true) :
    ∀ (l : List RawSample) (ls : LoopState), ls.aborted = false →
      (runLoop N now fmt flushOk l ls).aborted = false ∧
      (runLoop N now fmt flushOk l ls).rows
          ++ ((runLoop N now fmt flushOk l ls).buffer).map (renderRow fmt)
        = ls.rows ++ ls.buffer.map (renderRow fmt)
          ++ (validatedList now fmt l).map (renderRow fmt) ∧
      (runLoop N now fmt flushOk l ls).stats.total_points
        = ls.stats.total_points + l.length ∧
      (runLoop N now fmt flushOk l ls).stats.valid_points
        = ls.stats.valid_points + (validatedList now fmt l).length ∧
      (runLoop N now fmt flushOk l ls).stats.invalid_points
        = ls.stats.invalid_points + (l.length - (validatedList now fmt l).length) := by
  intro l
  induction l with
  | nil =>
    intro ls hab
    simp [runLoop, validatedList, hab]
  | cons d rest ih =>
    intro ls hab
    obtain ⟨pab, prows, ptot, pval, pinv⟩ :=
      processRecord_ok N now fmt flushOk hok ls d hab
    obtain ⟨rab, rrows, rtot, rval, rinv⟩ :=
      ih (processRecord N now fmt flushOk ls d) pab
    have hle : (validatedList now fmt rest).length ≤ rest.length :=
      List.length_filterMap_le _ _
    have hd : (mkValidated now fmt d).toList.length ≤ 1 := by
      cases mkValidated now fmt d <;> simp
    simp only [runLoop]
    refine ⟨rab, ?_, ?_, ?_, ?_⟩
    · rw [rrows, prows, validatedList_cons]
      simp [List.map_append, List.append_assoc]
    · rw [rtot, ptot]
      simp [List.length_cons]
      omega
    · rw [rval, pval, validatedList_cons]
      simp [List.length_append]
      omega
    · rw [rinv, pinv, validatedList_cons]
      simp only [List.length_cons, List.length_append]
      omega

end GazeTracker

namespace GazeTracker

/-- Splitting a division after a partial pass: flushes already performed plus
flushes still to come. -/
theorem div_mod_add_div (a c N : Nat) (hN : 0 < N) :
    (a + c) / N = a / N + (a % N + c) / N := by
  conv_lhs => rw [← Nat.div_add_mod a N]
  rw [Nat.add_assoc, Nat.mul_add_div hN]

/-- Mid-stream flush count as floor division, final partial flush as the
remainder: together they are the ceiling. -/
theorem flush_count_ceil (V N : Nat) (hN : 0 < N) :
    V / N + (if V % N = 0 then 0 else 1) = (V + N - 1) / N := by
  have h := Nat.div_add_mod V N
  have hr := Nat.mod_lt V hN
  by_cases hz : V % N = 0
  · have e : V + N - 1 = N * (V / N) + (N - 1) := by omega
    rw [if_pos hz, e, Nat.mul_add_div hN,
      Nat.div_eq_of_lt (show N - 1 < N by omega)]
  · have e : V + N - 1 = N * (V / N) + (V % N - 1 + N) := by omega
    rw [if_neg hz, e, Nat.mul_add_div hN, Nat.add_div_right _ hN,
      Nat.div_eq_of_lt (show V % N - 1 < N by omega)]

/-- One loop step under a non-failing sink, starting below capacity: the
buffer length and the flush count advance by exactly the buffered-export
arithmetic, and the buffer stays below capacity. -/
theorem processRecord_count (N : Nat) (now : Int) (fmt : Int → String)
    (flushOk : Nat → Bool) (hok : ∀ k, flushOk k = true) (hN : 0 < N)
    (ls : LoopState) (d : RawSample) (hab : ls.aborted = false)
    (hlen : ls.buffer.length < N) :
    (processRecord N now fmt flushOk ls d).buffer.length
        = (ls.buffer.length + (mkValidated now fmt d).toList.length) % N ∧
    (processRecord N now fmt flushOk ls d).flushes
        = ls.flushes
          + (ls.buffer.length + (mkValidated now fmt d).toList.length) / N ∧
    (processRecord N now fmt flushOk ls d).buffer.length < N := by
  have hfst := vdp_fst now ls.last fmt d
  cases hv : (validate_data_point now ls.last fmt d).1 with
  | none =>
    rw [hv] at hfst
    simp [processRecord, hab, hv, ← hfst, Nat.mod_eq_of_lt hlen,
      Nat.div_eq_of_lt hlen, hlen]
  | some r =>
    rw [hv] at hfst
    by_cases hbuf : N ≤ ls.buffer.length + 1
    · have hb : ls.buffer.length + 1 = N := by omega
      simp [processRecord, hab, hv, ← hfst, hbuf, hok, hb, Nat.mod_self,
        Nat.div_self hN, hN]
    · have hlt : ls.buffer.length + 1 < N := by omega
      simp [processRecord, hab, hv, ← hfst, hbuf, Nat.mod_eq_of_lt hlt,
        Nat.div_eq_of_lt hlt, hlt]

/-- The whole streaming loop under a non-failing sink, starting below
capacity: the buffer holds the remainder and the flush count the floor
quotient of (initial buffer + valid records) by the capacity. -/
theorem runLoop_count (N : Nat) (now : Int) (fmt : Int → String)
    (flushOk : Nat → Bool) (hok : ∀ k, flushOk k = true) (hN : 0 < N) :
    ∀ (l : List RawSample) (ls : LoopState), ls.aborted = false →
      ls.buffer.length < N →
      (runLoop N now fmt flushOk l ls).buffer.length
          = (ls.buffer.length + (validatedList now fmt l).length) % N ∧
      (runLoop N now fmt flushOk l ls).flushes
          = ls.flushes
            + (ls.buffer.length + (validatedList now fmt l).length) / N := by
  intro l
  induction l with
  | nil =>
    intro ls hab hlen
    simp [runLoop, validatedList, Nat.mod_eq_of_lt hlen, Nat.div_eq_of_lt hlen]
  | cons d rest ih =>
    intro ls hab hlen
    obtain ⟨pab, _, _, _, _⟩ := processRecord_ok N now fmt flushOk hok ls d hab
    obtain ⟨plen, pfl, plt⟩ :=
      processRecord_count N now fmt flushOk hok hN ls d hab hlen
    obtain ⟨rlen, rfls⟩ := ih (processRecord N now fmt flushOk ls d) pab plt
    have hbv : ls.buffer.length + (validatedList now fmt (d :: rest)).length
        = ls.buffer.length + (mkValidated now fmt d).toList.length
          + (validatedList now fmt rest).length := by
      rw [validatedList_cons, List.length_append]
      omega
    simp only [runLoop]
    constructor
    · rw [rlen, plen, hbv, Nat.mod_add_mod]
    · rw [rfls, pfl, plen, hbv,
        div_mod_add_div (ls.buffer.length + (mkValidated now fmt d).toList.length)
          (validatedList now fmt rest).length N hN]
      omega

/-- `export_session` under a non-failing sink writes exactly the
carried-over buffer followed by the session's validated records, ends with
an empty buffer, and the statistics count the whole input — whether or not
the end-of-call metrics logging then aborts the call (the rows have already
been written and the counters already set when it runs). -/
theorem export_session_ok (N : Nat) (now : Int) (fmt : Int → String)
    (flushOk : Nat → Bool) (st : ExporterState) (input : List RawSample)
    (hok : ∀ k, flushOk k = true) :
    (export_session N now fmt flushOk st input).rows
      = (st.buffer ++ validatedList now fmt input).map (renderRow fmt) ∧
    (export_session N now fmt flushOk st input).state.buffer = [] ∧
    (export_session N now fmt flushOk st input).state.stats.total_points
      = input.length ∧
    (export_session N now fmt flushOk st input).state.stats.valid_points
      = (validatedList now fmt input).length ∧
    (export_session N now fmt flushOk st input).state.stats.invalid_points
      = input.length - (validatedList now fmt input).length := by
  obtain ⟨rab, rrows, rtot, rval, rinv⟩ := runLoop_ok N now fmt flushOk hok input
    { buffer := st.buffer, last := st.last_timestamp, stats := stats0,
      rows := [], flushes := 0, warnings := [], aborted := false } rfl
  simp only [export_session]
  set lsr := runLoop N now fmt flushOk input
    { buffer := st.buffer, last := st.last_timestamp, stats := stats0,
      rows := [], flushes := 0, warnings := [], aborted := false } with hlsr
  simp only [List.nil_append] at rrows
  simp only [stats0] at rtot rval rinv
  by_cases hz : lsr.buffer.isEmpty
  · have h0 : lsr.buffer = [] := by simpa using hz
    rw [h0] at rrows
    simp only [List.map_nil, List.append_nil] at rrows
    simp [rab, hz, rrows, h0, rtot, rval, rinv, List.map_append]
  · have hz' : lsr.buffer.isEmpty = false := by simpa using hz
    simp [rab, hz', hok, rrows, rtot, rval, rinv, List.map_append]

/-- `export_session` under a non-failing sink and a non-empty session never
aborts: per-record failures are absorbed, and the end-of-call metrics
logging only raises when zero records were processed. -/
theorem export_session_noAbort (N : Nat) (now : Int) (fmt : Int → String)
    (flushOk : Nat → Bool) (st : ExporterState) (input : List RawSample)
    (hok : ∀ k, flushOk k = true) (hne : input ≠ []) :
    (export_session N now fmt flushOk st input).aborted = false := by
  obtain ⟨rab, rrows, rtot, rval, rinv⟩ := runLoop_ok N now fmt flushOk hok input
    { buffer := st.buffer, last := st.last_timestamp, stats := stats0,
      rows := [], flushes := 0, warnings := [], aborted := false } rfl
  simp only [export_session]
  set lsr := runLoop N now fmt flushOk input
    { buffer := st.buffer, last := st.last_timestamp, stats := stats0,
      rows := [], flushes := 0, warnings := [], aborted := false } with hlsr
  have htot : lsr.stats.total_points = input.length := by
    simpa [stats0] using rtot
  have hlen : input.length ≠ 0 := by
    intro hc
    exact hne (List.length_eq_zero.mp hc)
  have hb : (input.length == 0) = false := beq_eq_false_iff_ne.mpr hlen
  by_cases hz : lsr.buffer.isEmpty
  · simp [rab, hz, htot, hb]
  · have hz' : lsr.buffer.isEmpty = false := by simpa using hz
    simp [rab, hz', hok, htot, hb]

/-- C6: for every buffer capacity N ≥ 1, exporting a session with M valid
records from an empty buffer performs exactly ⌈M / N⌉ = (M + N - 1) / N
flush operations (the final partial flush included) and the artifact
contains exactly M data rows, independently of N. -/
theorem claim_C6 (N : Nat) (now : Int) (fmt : Int → String)
    (flushOk : Nat → Bool) (st : ExporterState) (input : List RawSample)
    (hok : ∀ k, flushOk k = true) (hN : 1 ≤ N) (hbuf : st.buffer = []) :
    (export_session N now fmt flushOk st input).flushes
        = ((validatedList now fmt input).length + N - 1) / N ∧
    (export_session N now fmt flushOk st input).rows.length
        = (validatedList now fmt input).length := by
  have hN0 : 0 < N := hN
  obtain ⟨rab, rrows, _, _, _⟩ := runLoop_ok N now fmt flushOk hok input
    { buffer := st.buffer, last := st.last_timestamp, stats := stats0,
      rows := [], flushes := 0, warnings := [], aborted := false } rfl
  obtain ⟨rlen, rfls⟩ := runLoop_count N now fmt flushOk hok hN0 input
    { buffer := st.buffer, last := st.last_timestamp, stats := stats0,
      rows := [], flushes := 0, warnings := [], aborted := false } rfl
    (by rw [hbuf]; simpa using hN0)
  simp only [export_session]
  set lsr := runLoop N now fmt flushOk input
    { buffer := st.buffer, last := st.last_timestamp, stats := stats0,
      rows := [], flushes := 0, warnings := [], aborted := false } with hlsr
  rw [hbuf] at rlen rfls rrows
  simp only [List.length_nil, Nat.zero_add, List.map_nil, List.append_nil,
    List.nil_append] at rlen rfls rrows
  constructor
  · rw [← flush_count_ceil (validatedList now fmt input).length N hN0]
    by_cases hz : (validatedList now fmt input).length % N = 0
    · have hempty : lsr.buffer.isEmpty = true := by
        have : lsr.buffer = [] := by
          apply List.length_eq_zero.mp
          rw [rlen, hz]
        simp [this]
      simp [rab, hempty, rfls, hz]
    · have hnempty : lsr.buffer.isEmpty = false := by
        have : lsr.buffer ≠ [] := by
          intro hc
          apply hz
          rw [← rlen, hc]
          rfl
        simpa using this
      simp [rab, hnempty, hok, rfls, hz]
  · by_cases hz : lsr.buffer.isEmpty
    · have h0 : lsr.buffer = [] := by simpa using hz
      rw [h0] at rrows
      simp only [List.map_nil, List.append_nil] at rrows
      simp [rab, hz, rrows]
    · have hz' : lsr.buffer.isEmpty = false := by simpa using hz
      have hlen : (lsr.rows ++ lsr.buffer.map (renderRow fmt)).length
          = (validatedList now fmt input).length := by
        rw [rrows, List.length_map]
      simp only [List.length_append, List.length_map] at hlen
      simp [rab, hz', hok, hlen]

/-- Witness for C6: three valid records with capacity 2 give 2 flushes and
3 rows. -/
theorem claim_C6_witness :
    (export_session 2 1700000000000 (fun _ => "") (fun _ => true) freshState
        [[("timestamp", .num 1700000000000), ("x", .num 1), ("y", .num 2)],
         [("timestamp", .num 1700000000100), ("x", .num 3), ("y", .num 4)],
         [("timestamp", .num 1700000000200), ("x", .num 5), ("y", .num 6)]]).flushes
      = ((validatedList 1700000000000 (fun _ => "")
          [[("timestamp", .num 1700000000000), ("x", .num 1), ("y", .num 2)],
           [("timestamp", .num 1700000000100), ("x", .num 3), ("y", .num 4)],
           [("timestamp", .num 1700000000200), ("x", .num 5), ("y", .num 6)]]).length
         + 2 - 1) / 2 :=
  (claim_C6 2 1700000000000 (fun _ => "") (fun _ => true) freshState
    [[("timestamp", .num 1700000000000), ("x", .num 1), ("y", .num 2)],
     [("timestamp", .num 1700000000100), ("x", .num 3), ("y", .num 4)],
     [("timestamp", .num 1700000000200), ("x", .num 5), ("y", .num 6)]]
    (fun _ => rfl) (by decide) rfl).1

end GazeTracker

namespace GazeTracker

/-- A non-aborted export call's artifact is never the empty string (the
header line is always present). -/
theorem artifact_ne_empty (res : ExportResult) (h : res.aborted = false) :
    res.artifact ≠ "" := by
  unfold ExportResult.artifact
  rw [if_neg (by simp [h])]
  intro hc
  have he : toCSV (headerRow :: res.rows)
      = String.intercalate "," headerRow ++ "\x0d\x0a" ++ toCSV res.rows := rfl
  rw [he] at hc
  have hl := congrArg String.length hc
  rw [String.length_append, String.length_append,
    show ("" : String).length = 0 from rfl] at hl
  have hpos : 0 < (String.intercalate "," headerRow).length := by decide
  omega

/-- C10: `export_session` does not clear its buffer on entry: records left
over in the buffer from before the call (e.g. after an aborted export) are
written into the new artifact, ahead of the new session's records. -/
theorem claim_C10 (N : Nat) (now : Int) (fmt : Int → String)
    (flushOk : Nat → Bool) (st : ExporterState) (input : List RawSample)
    (hok : ∀ k, flushOk k = true) (hbuf : st.buffer ≠ []) :
    (export_session N now fmt flushOk st input).rows
      = (st.buffer ++ validatedList now fmt input).map (renderRow fmt) :=
  (export_session_ok N now fmt flushOk st input hok).1

/-- Witness for C10: one stale buffered record and an empty new session —
the stale record is written into the new artifact. -/
theorem claim_C10_witness :
    (export_session 1000 0 (fun _ => "") (fun _ => true)
        { buffer := [⟨0, "", []⟩], last_timestamp := none, stats := stats0 }
        []).rows
      = (([(⟨0, "", []⟩ : ValidatedRecord)] ++ validatedList 0 (fun _ => "") []).map
          (renderRow (fun _ => ""))) :=
  claim_C10 1000 0 (fun _ => "") (fun _ => true)
    { buffer := [⟨0, "", []⟩], last_timestamp := none, stats := stats0 } []
    (fun _ => rfl) (by decide)

/-- C8 (code bug at the empty session): the claim says `export_session`
aborts as a whole if and only if a flush fails, with every per-record
failure absorbed — and the spec makes the statistics purely observational.
The code violates this on a session with zero records: with no flush
failure at all, `_log_performance_metrics` divides `valid_points` by
`total_points = 0` (line 349), the `ZeroDivisionError` lands in the blanket
handler, and the call aborts with the empty-string artifact.  A single
malformed record, by contrast, still does not abort (third conjunct: it
contributes `total_points = 1`, so the metrics division succeeds). -/
theorem claim_C8 :
    (export_session 1000 0 (fun _ => "") (fun _ => true) freshState []).aborted
      = true ∧
    (export_session 1000 0 (fun _ => "") (fun _ => true) freshState []).artifact
      = "" ∧
    (export_session 1000 0 (fun _ => "") (fun _ => true) freshState
        [[("x", .num 1)]]).aborted = false := by
  exact ⟨rfl, rfl, rfl⟩

/-- Counterexample to C9 as stated: the last-accepted-timestamp tracking is
NOT reset at the start of an export call — a `last_timestamp` surviving from
before the call produces an out-of-sequence warning on the very same input
for which a fresh (reset) state produces no warning. -/
theorem claim_C9_cex :
    (export_session 1000 1700000000000 (fun _ => "") (fun _ => true)
        { buffer := [], last_timestamp := some 1700000001000, stats := stats0 }
        [[("timestamp", .num 1700000000000), ("x", .num 1), ("y", .num 2)]]).warnings
      = [.outOfSequence 1700000000000 1700000001000] ∧
    (export_session 1000 1700000000000 (fun _ => "") (fun _ => true) freshState
        [[("timestamp", .num 1700000000000), ("x", .num 1), ("y", .num 2)]]).warnings
      = [] := by
  constructor
  · decide
  · decide

/-- C9 (amended): at the start of every export call the statistics counters
are reset — the counters the exporter carries into the call never influence
the result — and exactly the fixed header row is written before any data
row.  (The last-accepted-timestamp tracking is NOT reset; see the
counterexample.) -/
theorem claim_C9_amended (N : Nat) (now : Int) (fmt : Int → String)
    (flushOk : Nat → Bool) (st : ExporterState) (s : Stats)
    (input : List RawSample) :
    export_session N now fmt flushOk { st with stats := s } input
      = export_session N now fmt flushOk st input ∧
    ((export_session N now fmt flushOk st input).aborted = false →
      ∃ rest, (export_session N now fmt flushOk st input).artifact
        = "timestamp,time_24h,x,y,confidence,pupilD,docX,docY,HeadX,HeadY,HeadZ,HeadYaw,HeadPitch,HeadRoll\x0d\x0a"
          ++ rest) := by
  constructor
  · cases st
    rfl
  · intro hab
    refine ⟨toCSV (export_session N now fmt flushOk st input).rows, ?_⟩
    unfold ExportResult.artifact
    rw [if_neg (by simp [hab])]
    rfl

/-- Witness for C9 (amended): concrete export whose artifact starts with the
header line. -/
theorem claim_C9_amended_witness :
    ∃ rest,
      (export_session 1000 0 (fun _ => "") (fun _ => true) freshState
          [[("timestamp", .num 0), ("x", .num 1), ("y", .num 2)]]).artifact
        = "timestamp,time_24h,x,y,confidence,pupilD,docX,docY,HeadX,HeadY,HeadZ,HeadYaw,HeadPitch,HeadRoll\x0d\x0a"
          ++ rest :=
  (claim_C9_amended 1000 0 (fun _ => "") (fun _ => true) freshState stats0
    [[("timestamp", .num 0), ("x", .num 1), ("y", .num 2)]]).2 rfl

end GazeTracker

namespace GazeTracker

/-- First record of the spec's end-to-end scenario:
`{timestamp: T, x: 500, y: 500, confidence: 0.9}`. -/
def c1sample1 (T : Int) : RawSample :=
  [("timestamp", .num (T : ℚ)), ("x", .num 500), ("y", .num 500),
   ("confidence", .num (mkRat 9 10))]

/-- Second record: `{timestamp: T+16, x: 501, y: 500, confidence: 1.5}`
(confidence out of range). -/
def c1sample2 (T : Int) : RawSample :=
  [("timestamp", .num ((T + 16 : Int) : ℚ)), ("x", .num 501), ("y", .num 500),
   ("confidence", .num (mkRat 3 2))]

/-- Third record: `{x: 502, y: 500}` (missing timestamp). -/
def c1sample3 : RawSample :=
  [("x", .num 502), ("y", .num 500)]

/-- Counterexample to C1 as stated: on the three-record scenario input the
exporter produces TWO data rows — the out-of-range confidence does not
invalidate record two, it only blanks its confidence cell — the statistics
are total=3, valid=2, invalid=1 (not 3/1/2), and the confidence of the first
row renders as `0.9` (Python `str(round(0.9, 2))`), not `0.90`. -/
theorem claim_C1_cex :
    (export_session 1000 1700000000000 (fun _ => "t") (fun _ => true)
        freshState
        [c1sample1 1700000000000, c1sample2 1700000000000, c1sample3]).rows
      = [["1700000000000", "t", "500.0", "500.0", "0.9",
          "", "", "", "", "", "", "", "", ""],
         ["1700000000016", "t", "501.0", "500.0", "",
          "", "", "", "", "", "", "", "", ""]] ∧
    (export_session 1000 1700000000000 (fun _ => "t") (fun _ => true)
        freshState
        [c1sample1 1700000000000, c1sample2 1700000000000, c1sample3]).state.stats
      = ⟨3, 2, 1⟩ ∧
    ¬ ((export_session 1000 1700000000000 (fun _ => "t") (fun _ => true)
          freshState
          [c1sample1 1700000000000, c1sample2 1700000000000, c1sample3]).state.stats.valid_points
        = 1 ∧
       (export_session 1000 1700000000000 (fun _ => "t") (fun _ => true)
          freshState
          [c1sample1 1700000000000, c1sample2 1700000000000, c1sample3]).state.stats.invalid_points
        = 2 ∧
       (export_session 1000 1700000000000 (fun _ => "t") (fun _ => true)
          freshState
          [c1sample1 1700000000000, c1sample2 1700000000000, c1sample3]).rows.length
        = 1) := by
  refine ⟨by decide, by decide, ?_⟩
  intro h
  exact absurd h.1 (by decide)

/-- C1 (amended): for the three-record scenario input (T inside the valid
timestamp window), the export succeeds with the header followed by exactly
TWO data rows — the first record with confidence rendered `0.9` and pupilD,
doc and head fields empty, the second record with confidence empty — and
statistics total=3, valid=2, invalid=1. -/
theorem claim_C1_amended (now T : Int) (fmt : Int → String)
    (h1 : now - 3600000 ≤ T) (h2 : T + 16 ≤ now + 1000) :
    (export_session 1000 now fmt (fun _ => true) freshState
        [c1sample1 T, c1sample2 T, c1sample3]).rows
      = [[toString T, fmt T, "500.0", "500.0", "0.9",
          "", "", "", "", "", "", "", "", ""],
         [toString (T + 16), fmt (T + 16), "501.0", "500.0", "",
          "", "", "", "", "", "", "", "", ""]] ∧
    (export_session 1000 now fmt (fun _ => true) freshState
        [c1sample1 T, c1sample2 T, c1sample3]).aborted = false ∧
    (export_session 1000 now fmt (fun _ => true) freshState
        [c1sample1 T, c1sample2 T, c1sample3]).artifact
      = toCSV (headerRow ::
          [[toString T, fmt T, "500.0", "500.0", "0.9",
            "", "", "", "", "", "", "", "", ""],
           [toString (T + 16), fmt (T + 16), "501.0", "500.0", "",
            "", "", "", "", "", "", "", "", ""]]) ∧
    (export_session 1000 now fmt (fun _ => true) freshState
        [c1sample1 T, c1sample2 T, c1sample3]).state.stats.total_points = 3 ∧
    (export_session 1000 now fmt (fun _ => true) freshState
        [c1sample1 T, c1sample2 T, c1sample3]).state.stats.valid_points = 2 ∧
    (export_session 1000 now fmt (fun _ => true) freshState
        [c1sample1 T, c1sample2 T, c1sample3]).state.stats.invalid_points = 1 := by
  have hn1 : ¬ (T < now - 3600000) := by omega
  have hn2 : ¬ (T > now + 1000) := by omega
  have hn3 : ¬ (T + 16 < now - 3600000) := by omega
  have hn4 : ¬ (T + 16 > now + 1000) := by omega
  have hm1 : mkValidated now fmt (c1sample1 T)
      = some ⟨T, fmt T, numeric_fields.map fun f =>
          (f, validate_numeric_field ((c1sample1 T).get f) f)⟩ := by
    simp [mkValidated, show firstMissing (c1sample1 T) = none from rfl,
      show (c1sample1 T).get "timestamp" = .num (T : ℚ) from rfl,
      pyInt_intCast, hn1, hn2]
  have hm2 : mkValidated now fmt (c1sample2 T)
      = some ⟨T + 16, fmt (T + 16), numeric_fields.map fun f =>
          (f, validate_numeric_field ((c1sample2 T).get f) f)⟩ := by
    have hget : (c1sample2 T).get "timestamp" = .num ((T + 16 : Int) : ℚ) := rfl
    rw [show ((T + 16 : Int) : ℚ) = (((T + 16 : Int) : Int) : ℚ) from rfl] at hget
    simp only [mkValidated, show firstMissing (c1sample2 T) = none from rfl,
      hget, pyInt_intCast]
    simp [hn3, hn4]
  have hm3 : mkValidated now fmt c1sample3 = none := rfl
  have hvl : validatedList now fmt [c1sample1 T, c1sample2 T, c1sample3]
      = [⟨T, fmt T, numeric_fields.map fun f =>
            (f, validate_numeric_field ((c1sample1 T).get f) f)⟩,
         ⟨T + 16, fmt (T + 16), numeric_fields.map fun f =>
            (f, validate_numeric_field ((c1sample2 T).get f) f)⟩] := by
    simp [validatedList, List.filterMap_cons, hm1, hm2, hm3]
  obtain ⟨hrows, hb, htot, hval, hinv⟩ :=
    export_session_ok 1000 now fmt (fun _ => true) freshState
      [c1sample1 T, c1sample2 T, c1sample3] (fun _ => rfl)
  have hab : (export_session 1000 now fmt (fun _ => true) freshState
      [c1sample1 T, c1sample2 T, c1sample3]).aborted = false :=
    export_session_noAbort 1000 now fmt (fun _ => true) freshState
      [c1sample1 T, c1sample2 T, c1sample3] (fun _ => rfl)
      (List.cons_ne_nil _ _)
  rw [hvl] at hrows
  simp only [show freshState.buffer = [] from rfl, List.nil_append,
    List.map_cons, List.map_nil] at hrows
  have hr1 : renderRow fmt
      ⟨T, fmt T, numeric_fields.map fun f =>
        (f, validate_numeric_field ((c1sample1 T).get f) f)⟩
      = [toString T, fmt T, "500.0", "500.0", "0.9",
         "", "", "", "", "", "", "", "", ""] := rfl
  have hr2 : renderRow fmt
      ⟨T + 16, fmt (T + 16), numeric_fields.map fun f =>
        (f, validate_numeric_field ((c1sample2 T).get f) f)⟩
      = [toString (T + 16), fmt (T + 16), "501.0", "500.0", "",
         "", "", "", "", "", "", "", "", ""] := rfl
  rw [hr1, hr2] at hrows
  rw [hvl] at hval hinv
  refine ⟨hrows, hab, ?_, htot, by simpa using hval, by simpa using hinv⟩
  unfold ExportResult.artifact
  rw [if_neg (by simp [hab]), hrows]

/-- Witness for C1 (amended) at T = now = 1700000000000. -/
theorem claim_C1_amended_witness :
    (export_session 1000 1700000000000 (fun _ => "t") (fun _ => true)
        freshState
        [c1sample1 1700000000000, c1sample2 1700000000000, c1sample3]).state.stats.valid_points
      = 2 :=
  (claim_C1_amended 1700000000000 1700000000000 (fun _ => "t")
    (by decide) (by decide)).2.2.2.2.1

end GazeTracker
